import Mathlib

/-!
Verification of the metrics-to-DataDog exporter (src/exporter.rs, src/recorder.rs).

The embedding models each DataDog series by an opaque content identifier
together with the byte length of its JSON serialization; a payload is
represented by the slice of series it serializes (serialization of a series
list is injective and gzip is lossless, so decoding a payload recovers its
slice).  Gzip compression of a batch is modelled by a function parameter
giving the compressed size of the serialized batch, since flate2 is an
external collaborator.  The recursive splitting functions are indexed by a
fuel parameter: a result of none means the recursion did not return within
the given depth, and a result of none for every fuel value means the Rust
code recurses forever on that input.
-/

/-- Transmission ceiling, bytes actually sent (src/exporter.rs line 25). -/
def MAX_PAYLOAD_BYTES : Nat := 3200000

/-- Decompressed ceiling, pre-compression size (src/exporter.rs line 26). -/
def MAX_DECOMPRESSED_PAYLOAD : Nat := 62914560

/-- One DataDog series record.  Modelled from the spec: data.rs is not under
src/; a series is a named, tagged record whose JSON serialization has a
definite byte length.  The field `id` stands for the series content (name,
tags, points) and `size` for the byte length of its JSON serialization. -/
structure DataDogSeries where
  id : Nat
  size : Nat
deriving DecidableEq, Repr

/-- Byte length of the comma-separated JSON renderings of the series in a
list: sizes of the elements plus one comma between adjacent elements. -/
def seriesListLen : List DataDogSeries → Nat
  | [] => 0
  | [s] => s.size
  | s :: rest => s.size + 1 + seriesListLen rest

/-- Byte length of serde_json::to_vec(&DataDogApiPost { series }).  Modelled
from the spec: data.rs is not under src/; the body is a JSON object holding a
`series` array, so the envelope is the 13 bytes of the object braces, the
quoted field name `series`, the colon and the array brackets. -/
def jsonLen (series : List DataDogSeries) : Nat := 13 + seriesListLen series

/-- src/exporter.rs lines 40-51.  The fuel argument bounds the recursion
depth; none models a call that never returns at that depth. -/
def split_series : Nat → List DataDogSeries → Option (List (List DataDogSeries))
  | 0, _ => none
  | fuel + 1, series =>
    if jsonLen series < MAX_PAYLOAD_BYTES then
      some [series]
    else
      (split_series fuel (series.take (series.length / 2))).bind fun l =>
        (split_series fuel (series.drop (series.length / 2))).map fun r => l ++ r

/-- src/exporter.rs lines 53-78.  `gz` gives the gzip-compressed size of the
serialized batch (flate2 is external); the two recursive branches mirror the
inner `split` helper called at lines 65 and 76. -/
def split_and_compress_series (gz : List DataDogSeries → Nat) :
    Nat → List DataDogSeries → Option (List (List DataDogSeries))
  | 0, _ => none
  | fuel + 1, series =>
    if jsonLen series > MAX_DECOMPRESSED_PAYLOAD then
      (split_and_compress_series gz fuel (series.take (series.length / 2))).bind fun l =>
        (split_and_compress_series gz fuel (series.drop (series.length / 2))).map fun r => l ++ r
    else if gz series < MAX_PAYLOAD_BYTES then
      some [series]
    else
      (split_and_compress_series gz fuel (series.take (series.length / 2))).bind fun l =>
        (split_and_compress_series gz fuel (series.drop (series.length / 2))).map fun r => l ++ r

/-- One in-process metric.  Modelled from the spec: data.rs is not under src/;
what packing needs of a DataDogMetric is the list of series derived from it. -/
structure DataDogMetric where
  series : List DataDogSeries
deriving DecidableEq, Repr

/-- Modelled from the spec: data.rs is not under src/; DataDogSeries::new
yields the series derived from one metric (flat_mapped at exporter.rs 29-32). -/
def DataDogSeries.new (m : DataDogMetric) : List DataDogSeries := m.series

/-- src/exporter.rs lines 28-38. -/
def metric_requests (gz : List DataDogSeries → Nat) (fuel : Nat)
    (metrics : List DataDogMetric) (gzip : Bool) : Option (List (List DataDogSeries)) :=
  let series := (metrics.map DataDogSeries.new).flatten
  if gzip then split_and_compress_series gz fuel series else split_series fuel series

theorem split_series_join (fuel : Nat) :
    ∀ (series : List DataDogSeries) (ps : List (List DataDogSeries)),
      split_series fuel series = some ps → ps.flatten = series := by
  induction fuel with
  | zero => intro series ps h; simp [split_series] at h
  | succ n ih =>
    intro series ps h
    simp only [split_series] at h
    split at h
    · injection h with h
      subst h
      simp
    · rw [Option.bind_eq_some] at h
      obtain ⟨l, hl, h⟩ := h
      rw [Option.map_eq_some'] at h
      obtain ⟨r, hr, h⟩ := h
      subst h
      rw [List.flatten_append, ih _ _ hl, ih _ _ hr, List.take_append_drop]

theorem split_and_compress_series_join (gz : List DataDogSeries → Nat) (fuel : Nat) :
    ∀ (series : List DataDogSeries) (ps : List (List DataDogSeries)),
      split_and_compress_series gz fuel series = some ps → ps.flatten = series := by
  induction fuel with
  | zero => intro series ps h; simp [split_and_compress_series] at h
  | succ n ih =>
    intro series ps h
    simp only [split_and_compress_series] at h
    split at h
    · rw [Option.bind_eq_some] at h
      obtain ⟨l, hl, h⟩ := h
      rw [Option.map_eq_some'] at h
      obtain ⟨r, hr, h⟩ := h
      subst h
      rw [List.flatten_append, ih _ _ hl, ih _ _ hr, List.take_append_drop]
    · split at h
      · injection h with h
        subst h
        simp
      · rw [Option.bind_eq_some] at h
        obtain ⟨l, hl, h⟩ := h
        rw [Option.map_eq_some'] at h
        obtain ⟨r, hr, h⟩ := h
        subst h
        rw [List.flatten_append, ih _ _ hl, ih _ _ hr, List.take_append_drop]

theorem split_series_sizes (fuel : Nat) :
    ∀ (series : List DataDogSeries) (ps : List (List DataDogSeries)),
      split_series fuel series = some ps →
      ∀ p ∈ ps, jsonLen p < MAX_PAYLOAD_BYTES := by
  induction fuel with
  | zero => intro series ps h; simp [split_series] at h
  | succ n ih =>
    intro series ps h
    simp only [split_series] at h
    split at h
    · injection h with h
      subst h
      intro p hp
      rw [List.mem_singleton] at hp
      subst hp
      assumption
    · rw [Option.bind_eq_some] at h
      obtain ⟨l, hl, h⟩ := h
      rw [Option.map_eq_some'] at h
      obtain ⟨r, hr, h⟩ := h
      subst h
      intro p hp
      rcases List.mem_append.mp hp with hpl | hpr
      · exact ih _ _ hl p hpl
      · exact ih _ _ hr p hpr

theorem split_and_compress_series_sizes (gz : List DataDogSeries → Nat) (fuel : Nat) :
    ∀ (series : List DataDogSeries) (ps : List (List DataDogSeries)),
      split_and_compress_series gz fuel series = some ps →
      ∀ p ∈ ps, jsonLen p ≤ MAX_DECOMPRESSED_PAYLOAD ∧ gz p < MAX_PAYLOAD_BYTES := by
  induction fuel with
  | zero => intro series ps h; simp [split_and_compress_series] at h
  | succ n ih =>
    intro series ps h
    simp only [split_and_compress_series] at h
    split at h
    · rw [Option.bind_eq_some] at h
      obtain ⟨l, hl, h⟩ := h
      rw [Option.map_eq_some'] at h
      obtain ⟨r, hr, h⟩ := h
      subst h
      intro p hp
      rcases List.mem_append.mp hp with hpl | hpr
      · exact ih _ _ hl p hpl
      · exact ih _ _ hr p hpr
    · rename_i hle
      split at h
      · injection h with h
        subst h
        intro p hp
        rw [List.mem_singleton] at hp
        subst hp
        exact ⟨Nat.le_of_not_lt (fun hc => hle (Nat.lt_of_le_of_lt (Nat.le_refl _) hc)), by assumption⟩
      · rw [Option.bind_eq_some] at h
        obtain ⟨l, hl, h⟩ := h
        rw [Option.map_eq_some'] at h
        obtain ⟨r, hr, h⟩ := h
        subst h
        intro p hp
        rcases List.mem_append.mp hp with hpl | hpr
        · exact ih _ _ hl p hpl
        · exact ih _ _ hr p hpr

theorem split_series_ne_nil (fuel : Nat) :
    ∀ (series : List DataDogSeries) (ps : List (List DataDogSeries)),
      split_series fuel series = some ps → ps ≠ [] := by
  induction fuel with
  | zero => intro series ps h; simp [split_series] at h
  | succ n ih =>
    intro series ps h
    simp only [split_series] at h
    split at h
    · injection h with h
      subst h
      simp
    · rw [Option.bind_eq_some] at h
      obtain ⟨l, hl, h⟩ := h
      rw [Option.map_eq_some'] at h
      obtain ⟨r, hr, h⟩ := h
      subst h
      intro hnil
      rcases List.append_eq_nil.mp hnil with ⟨hlnil, -⟩
      exact ih _ _ hl hlnil

theorem bind_map_none_eq_none (o : Option (List (List DataDogSeries))) :
    (o.bind fun l => (none : Option (List (List DataDogSeries))).map fun r => l ++ r) = none := by
  cases o <;> rfl

theorem split_series_singleton_diverges (fuel : Nat) :
    ∀ x : DataDogSeries, ¬ jsonLen [x] < MAX_PAYLOAD_BYTES → split_series fuel [x] = none := by
  induction fuel with
  | zero => intro x _; rfl
  | succ n ih =>
    intro x hx
    simp only [split_series]
    rw [if_neg hx]
    have hlen : [x].length / 2 = 0 := by simp
    rw [hlen, List.take_zero, List.drop_zero]
    simp only [ih x hx]
    exact bind_map_none_eq_none _

theorem split_and_compress_singleton_diverges (gz : List DataDogSeries → Nat) (fuel : Nat) :
    ∀ x : DataDogSeries, ¬ gz [x] < MAX_PAYLOAD_BYTES →
      split_and_compress_series gz fuel [x] = none := by
  induction fuel with
  | zero => intro x _; rfl
  | succ n ih =>
    intro x hx
    simp only [split_and_compress_series]
    have hlen : [x].length / 2 = 0 := by simp
    by_cases hbig : jsonLen [x] > MAX_DECOMPRESSED_PAYLOAD
    · rw [if_pos hbig, hlen, List.take_zero, List.drop_zero]
      simp only [ih x hx]
      exact bind_map_none_eq_none _
    · rw [if_neg hbig, if_neg hx, hlen, List.take_zero, List.drop_zero]
      simp only [ih x hx]
      exact bind_map_none_eq_none _

/-- Claim C1 (code_bug evidence): a batch holding a single series whose
serialized size (4,000,000 bytes) reaches the transmission ceiling is never
packed at any recursion depth, with compression disabled or enabled: the code
splits the singleton into the empty list and the same singleton and recurses
on the singleton forever, so no EncodeError::Unsplittable is ever produced. -/
theorem packing_diverges_on_oversized_single_series :
    ∀ fuel : Nat,
      split_series fuel [⟨0, 4000000⟩] = none ∧
      split_and_compress_series (fun _ => 3200000) fuel [⟨0, 4000000⟩] = none :=
  fun fuel =>
    ⟨split_series_singleton_diverges fuel ⟨0, 4000000⟩ (by decide),
     split_and_compress_singleton_diverges (fun _ => 3200000) fuel ⟨0, 4000000⟩ (by decide)⟩

/-- Claim C2: for every metric batch, fuel bound, compression size model and
either compression setting, when packing returns payloads, concatenating the
series carried by the payloads in order yields exactly the series derived from
the batch: nothing lost, nothing duplicated, order preserved. -/
theorem metric_requests_preserve_series :
    ∀ (gz : List DataDogSeries → Nat) (fuel : Nat) (metrics : List DataDogMetric)
      (gzip : Bool) (ps : List (List DataDogSeries)),
      metric_requests gz fuel metrics gzip = some ps →
      ps.flatten = (metrics.map DataDogSeries.new).flatten := by
  intro gz fuel metrics gzip ps h
  simp only [metric_requests] at h
  cases gzip with
  | false => exact split_series_join fuel _ ps (by simpa using h)
  | true => exact split_and_compress_series_join gz fuel _ ps (by simpa using h)

/-- Claim C2 witness: a two-series batch packed without compression at fuel 1
gives one payload whose content is exactly the derived series list. -/
theorem metric_requests_preserve_series_witness :
    ([[⟨0, 5⟩, ⟨1, 6⟩]] : List (List DataDogSeries)).flatten =
      (([⟨[⟨0, 5⟩, ⟨1, 6⟩]⟩] : List DataDogMetric).map DataDogSeries.new).flatten :=
  metric_requests_preserve_series (fun _ => 0) 1 [⟨[⟨0, 5⟩, ⟨1, 6⟩]⟩] false
    [[⟨0, 5⟩, ⟨1, 6⟩]] (by decide)

/-- Claim C3 counterexample: with compression enabled, a singleton batch whose
serialized size is exactly 62,914,560 bytes (the decompressed ceiling) and
whose compressed size is tiny is emitted as one payload, because the code
splits only when the serialized size strictly exceeds the ceiling; its
pre-compression size is therefore not strictly below the ceiling, refuting the
strict bound claimed for emitted payloads. -/
theorem compress_emits_payload_at_decompressed_ceiling :
    split_and_compress_series (fun _ => 100) 1 [⟨0, 62914547⟩] = some [[⟨0, 62914547⟩]] ∧
    ¬ jsonLen [⟨0, 62914547⟩] < MAX_DECOMPRESSED_PAYLOAD := by
  decide

/-- Claim C3 (amended): every payload emitted without compression has
serialized size strictly below the transmission ceiling; every payload emitted
with compression has pre-compression serialized size at most (not strictly
below) the decompressed ceiling and compressed size strictly below the
transmission ceiling. -/
theorem produced_payload_sizes :
    ∀ (gz : List DataDogSeries → Nat) (fuel : Nat) (series : List DataDogSeries)
      (ps : List (List DataDogSeries)),
      (split_series fuel series = some ps → ∀ p ∈ ps, jsonLen p < MAX_PAYLOAD_BYTES) ∧
      (split_and_compress_series gz fuel series = some ps →
        ∀ p ∈ ps, jsonLen p ≤ MAX_DECOMPRESSED_PAYLOAD ∧ gz p < MAX_PAYLOAD_BYTES) :=
  fun gz fuel series ps =>
    ⟨split_series_sizes fuel series ps, split_and_compress_series_sizes gz fuel series ps⟩

/-- Claim C3 witness: the bounds evaluated on a concrete singleton batch
packed at fuel 1 in both modes. -/
theorem produced_payload_sizes_witness :
    jsonLen [⟨0, 5⟩] < MAX_PAYLOAD_BYTES ∧
    jsonLen [⟨0, 5⟩] ≤ MAX_DECOMPRESSED_PAYLOAD ∧ 100 < MAX_PAYLOAD_BYTES :=
  ⟨(produced_payload_sizes (fun _ => 100) 1 [⟨0, 5⟩] [[⟨0, 5⟩]]).1 (by decide)
      [⟨0, 5⟩] (by decide),
   (produced_payload_sizes (fun _ => 100) 1 [⟨0, 5⟩] [[⟨0, 5⟩]]).2 (by decide)
      [⟨0, 5⟩] (by decide)⟩

/-- Claim C8 counterexample: with compression enabled, a batch whose
serialized size (4,000,013 bytes) exceeds the transmission ceiling but whose
compressed size is tiny produces exactly one payload, not more than one. -/
theorem compressed_big_batch_single_payload :
    MAX_PAYLOAD_BYTES < jsonLen [⟨0, 4000000⟩] ∧
    split_and_compress_series (fun _ => 100) 1 [⟨0, 4000000⟩] = some [[⟨0, 4000000⟩]] ∧
    ([[(⟨0, 4000000⟩ : DataDogSeries)]] : List (List DataDogSeries)).length = 1 := by
  decide

/-- Claim C8 (amended): without compression, a batch whose serialized size is
at least the transmission ceiling yields, whenever packing returns, more than
one payload; a batch whose serialized size is under the transmission ceiling
yields exactly one payload; with compression, a batch whose serialized size is
at most the decompressed ceiling and whose compressed size is under the
transmission ceiling yields exactly one payload. -/
theorem split_payload_counts :
    ∀ (gz : List DataDogSeries → Nat) (fuel : Nat) (series : List DataDogSeries)
      (ps : List (List DataDogSeries)),
      (MAX_PAYLOAD_BYTES ≤ jsonLen series → split_series fuel series = some ps →
        1 < ps.length) ∧
      (jsonLen series < MAX_PAYLOAD_BYTES → split_series (fuel + 1) series = some [series]) ∧
      (jsonLen series ≤ MAX_DECOMPRESSED_PAYLOAD → gz series < MAX_PAYLOAD_BYTES →
        split_and_compress_series gz (fuel + 1) series = some [series]) := by
  intro gz fuel series ps
  refine ⟨?_, ?_, ?_⟩
  · intro hbig h
    cases fuel with
    | zero => simp [split_series] at h
    | succ n =>
      simp only [split_series] at h
      rw [if_neg (Nat.not_lt.mpr hbig)] at h
      rw [Option.bind_eq_some] at h
      obtain ⟨l, hl, h⟩ := h
      rw [Option.map_eq_some'] at h
      obtain ⟨r, hr, h⟩ := h
      subst h
      have hl1 : 0 < l.length := List.length_pos.mpr (split_series_ne_nil n _ _ hl)
      have hr1 : 0 < r.length := List.length_pos.mpr (split_series_ne_nil n _ _ hr)
      rw [List.length_append]
      omega
  · intro hsmall
    simp only [split_series]
    rw [if_pos hsmall]
  · intro hdec hgz
    simp only [split_and_compress_series]
    rw [if_neg (Nat.not_lt.mpr hdec), if_pos hgz]

/-- Claim C8 witness: a two-series batch over the transmission ceiling splits
into two payloads; small singleton batches give exactly one payload in each
mode. -/
theorem split_payload_counts_witness :
    1 < ([[⟨0, 2000000⟩], [⟨1, 2000000⟩]] : List (List DataDogSeries)).length ∧
    split_series 1 [⟨0, 5⟩] = some [[⟨0, 5⟩]] ∧
    split_and_compress_series (fun _ => 100) 1 [⟨0, 7⟩] = some [[⟨0, 7⟩]] :=
  ⟨(split_payload_counts (fun _ => 0) 2 [⟨0, 2000000⟩, ⟨1, 2000000⟩]
      [[⟨0, 2000000⟩], [⟨1, 2000000⟩]]).1 (by decide) (by decide),
   (split_payload_counts (fun _ => 0) 0 [⟨0, 5⟩] []).2.1 (by decide),
   (split_payload_counts (fun _ => 100) 0 [⟨0, 7⟩] []).2.2 (by decide) (by decide)⟩

/-- Instrument identity: name plus ordered label set (metrics::Key). -/
structure Key where
  name : String
  labels : List (String × String)
deriving DecidableEq, Repr

/-- The metrics_util registry with AtomicStorage, as read by collect
(src/exporter.rs lines 129-182): counter and gauge handles each hold one
u64-backed value, histogram handles hold the buffered observations.  Values
are modelled by their u64 bit patterns. -/
structure Registry where
  counters : List (Key × Nat)
  gauges : List (Key × Nat)
  histograms : List (Key × List Nat)
deriving DecidableEq, Repr

def Registry.empty : Registry := ⟨[], [], []⟩

/-- Registry::clear from metrics_util removes every metric from the registry
(called at src/exporter.rs line 175). -/
def Registry.clear (_ : Registry) : Registry := Registry.empty

/-- itertools group_by as used in collect: groups consecutive entries sharing
the same key. -/
def group_by {K V : Type} [DecidableEq K] : List (K × V) → List (K × List V)
  | [] => []
  | (k, v) :: rest =>
    match group_by rest with
    | [] => [(k, [v])]
    | (k2, vs) :: gs =>
      if k = k2 then (k, v :: vs) :: gs else (k, [v]) :: (k2, vs) :: gs

/-- src/exporter.rs lines 129-182.  The conversion functions
DataDogMetric::from_counter, from_gauge and from_histogram live in data.rs,
which is not under src/, so they are taken as parameters.  Reads every
counter, gauge and histogram handle, groups handles sharing a key, converts
each group, clears the registry, and returns counters then gauges then
histograms. -/
def collect (from_counter : Key → List Nat → List (String × String) → DataDogMetric)
    (from_gauge : Key → List Nat → List (String × String) → DataDogMetric)
    (from_histogram : Key → List (List Nat) → List (String × String) → DataDogMetric)
    (tags : List (String × String)) (r : Registry) : List DataDogMetric × Registry :=
  let counters := (group_by r.counters).map fun kv => from_counter kv.1 kv.2 tags
  let gauges := (group_by r.gauges).map fun kv => from_gauge kv.1 kv.2 tags
  let histograms := (group_by r.histograms).map fun kv => from_histogram kv.1 kv.2 tags
  (counters ++ gauges ++ histograms, r.clear)

/-- The crate error type.  Modelled from the spec: lib.rs is not under src/;
the taxonomy distinguishes encoding failures, non-success HTTP statuses and
network-level failures. -/
inductive Error where
  | encode (detail : String)
  | transport (status : Nat)
  | network (detail : String)
deriving DecidableEq, Repr

/-- One outbound POST built at src/exporter.rs lines 216-227: URL, DD-API-KEY
header value, payload body (represented by the series it serializes), and
whether a Content-Encoding gzip header is attached. -/
structure HttpRequest where
  url : String
  dd_api_key : String
  body : List DataDogSeries
  gzip_encoding : Bool
deriving DecidableEq, Repr

/-- Observable events of one flush pass: the tracing debug line at
src/exporter.rs line 187, stdout lines from write_to_stdout, the per-response
debug line at line 238, and the scheduler warn line at line 119. -/
inductive Event where
  | debugFlushing (metricCount : Nat)
  | stdoutLine (m : DataDogMetric)
  | debugResponse (status : Nat) (message : String)
  | warnFlushFailed (e : Error)
deriving DecidableEq, Repr

/-- Models reqwest Response::error_for_status, called at src/exporter.rs line
229: the response becomes an error exactly when its status is a client error
(400-499) or a server error (500-599); every other status passes through. -/
def error_for_status (status : Nat) : Except Error Nat :=
  if 400 ≤ status ∧ status ≤ 599 then Except.error (Error.transport status)
  else Except.ok status

/-- The configuration consumed by DataDogExporter::new.  Modelled from the
spec: builder.rs is not under src/; the fields are the ones read at
src/exporter.rs lines 98-107. -/
structure DataDogConfig where
  write_to_stdout : Bool
  write_to_api : Bool
  api_host : String
  api_key : Option String
  tags : List (String × String)
  gzip : Bool

/-- src/exporter.rs lines 209-242.  `net` models the network: the raw status
and body text of the response to one request, or a network-level failure.
The result is none when the call does not return normally: packing never
returns (fuel exhaustion), or the .unwrap() on a missing api_client or
api_key at lines 220 and 222 panics.  Otherwise it carries the debug events,
the returned Result, and the requests that were issued. -/
def write_to_api (gz : List DataDogSeries → Nat) (fuel : Nat) (cfg : DataDogConfig)
    (api_client : Option Unit) (net : HttpRequest → Except Error (Nat × String))
    (metrics : List DataDogMetric) :
    Option (List Event × Except Error Unit × List HttpRequest) :=
  if metrics.isEmpty then
    some ([], Except.ok (), [])
  else
    match metric_requests gz fuel metrics cfg.gzip with
    | none => none
    | some payloads =>
      match api_client, cfg.api_key with
      | some _, some key =>
        let requests := payloads.map fun p =>
          { url := cfg.api_host ++ "/series", dd_api_key := key, body := p,
            gzip_encoding := cfg.gzip : HttpRequest }
        match requests.mapM (fun req =>
            (net req).bind fun sm => (error_for_status sm.1).map fun s => (s, sm.2)) with
        | Except.error e => some ([], Except.error e, requests)
        | Except.ok responses =>
          some (responses.map fun sm => Event.debugResponse sm.1 sm.2, Except.ok (), requests)
      | _, _ => none

/-- src/exporter.rs lines 185-198: collect, log the metric count, optionally
write each metric to stdout, optionally export to the API, propagating any
api error to the caller.  none models a panic or a call that never returns. -/
def flush (gz : List DataDogSeries → Nat) (fuel : Nat)
    (from_counter : Key → List Nat → List (String × String) → DataDogMetric)
    (from_gauge : Key → List Nat → List (String × String) → DataDogMetric)
    (from_histogram : Key → List (List Nat) → List (String × String) → DataDogMetric)
    (cfg : DataDogConfig) (api_client : Option Unit)
    (net : HttpRequest → Except Error (Nat × String)) (r : Registry) :
    Option (List Event × Except Error Unit × Registry) :=
  let mr := collect from_counter from_gauge from_histogram cfg.tags r
  let logs := Event.debugFlushing mr.1.length ::
    (if cfg.write_to_stdout then mr.1.map Event.stdoutLine else [])
  if cfg.write_to_api then
    match write_to_api gz fuel cfg api_client net mr.1 with
    | none => none
    | some (apiLogs, apiRes, _) => some (logs ++ apiLogs, apiRes, mr.2)
  else
    some (logs, Except.ok (), mr.2)

/-- A manually invoked flush is the public flush itself: its Result goes
straight back to the caller (src/exporter.rs line 185). -/
def manual_flush := flush

/-- src/exporter.rs lines 117-121: the closure run at every scheduled tick
inspects the flush Result; an Err is turned into a warn event carrying the
error, and nothing is rethrown (the codomain has no error component). -/
def tick_boundary (result : Except Error Unit) : List Event :=
  match result with
  | Except.error e => [Event.warnFlushFailed e]
  | Except.ok _ => []

/-- One scheduled tick (src/exporter.rs lines 114-122): run flush, then the
tick boundary.  Errors are absorbed into the event log; only a panic or a
non-returning call (none) escapes. -/
def schedule_tick (gz : List DataDogSeries → Nat) (fuel : Nat)
    (from_counter : Key → List Nat → List (String × String) → DataDogMetric)
    (from_gauge : Key → List Nat → List (String × String) → DataDogMetric)
    (from_histogram : Key → List (List Nat) → List (String × String) → DataDogMetric)
    (cfg : DataDogConfig) (api_client : Option Unit)
    (net : HttpRequest → Except Error (Nat × String)) (r : Registry) :
    Option (List Event × Registry) :=
  match flush gz fuel from_counter from_gauge from_histogram cfg api_client net r with
  | none => none
  | some (logs, res, r2) => some (logs ++ tick_boundary res, r2)

/-- The scheduling loop applies the tick boundary to every tick outcome in
turn; no outcome can stop the traversal. -/
def schedule_ticks (results : List (Except Error Unit)) : List (List Event) :=
  results.map tick_boundary

/-- std::time::Duration: whole seconds plus a sub-second nanosecond part. -/
structure Duration where
  secs : Nat
  nanos : Nat
deriving DecidableEq, Repr

/-- Duration::as_secs returns the whole-seconds component only. -/
def Duration.as_secs (d : Duration) : Nat := d.secs

/-- Duration::from_millis. -/
def Duration.from_millis (ms : Nat) : Duration := ⟨ms / 1000, ms % 1000 * 1000000⟩

/-- src/exporter.rs line 114: every(interval.as_secs() as u32).seconds().
The cast to u32 truncates modulo 2^32. -/
def schedule_interval_seconds (interval : Duration) : Nat := interval.as_secs % 2 ^ 32

theorem write_to_api_panics (gz : List DataDogSeries → Nat) (fuel : Nat) (cfg : DataDogConfig)
    (api_client : Option Unit) (net : HttpRequest → Except Error (Nat × String))
    (metrics : List DataDogMetric) :
    metrics ≠ [] →
    (metric_requests gz fuel metrics cfg.gzip).isSome = true →
    (api_client = none ∨ cfg.api_key = none) →
    write_to_api gz fuel cfg api_client net metrics = none := by
  intro hne hsome hmiss
  obtain ⟨payloads, hp⟩ := Option.isSome_iff_exists.mp hsome
  simp only [write_to_api]
  rw [if_neg (by simpa using hne), hp]
  rcases hmiss with hc | hk
  · subst hc
    cases cfg.api_key <;> rfl
  · rw [hk]
    cases api_client <;> rfl

theorem flush_logs_shape (gz : List DataDogSeries → Nat) (fuel : Nat)
    (fc : Key → List Nat → List (String × String) → DataDogMetric)
    (fg : Key → List Nat → List (String × String) → DataDogMetric)
    (fh : Key → List (List Nat) → List (String × String) → DataDogMetric)
    (cfg : DataDogConfig) (api_client : Option Unit)
    (net : HttpRequest → Except Error (Nat × String)) (r : Registry)
    (logs : List Event) (res : Except Error Unit) (r2 : Registry) :
    flush gz fuel fc fg fh cfg api_client net r = some (logs, res, r2) →
    ∃ rest, logs = Event.debugFlushing (collect fc fg fh cfg.tags r).1.length :: rest := by
  intro h
  simp only [flush] at h
  split at h
  · split at h
    · simp at h
    · simp only [Option.some.injEq, Prod.mk.injEq] at h
      obtain ⟨h1, -, -⟩ := h
      rw [List.cons_append] at h1
      exact ⟨_, h1.symm⟩
  · simp only [Option.some.injEq, Prod.mk.injEq] at h
    obtain ⟨h1, -, -⟩ := h
    exact ⟨_, h1.symm⟩

/-- Claim C4: whenever the flush pass of a scheduled tick returns a Result,
the tick absorbs any error into a warn event carrying the error detail, the
tick events include the logged metric count, the tick returns no error (its
codomain has none), the scheduling loop applies the boundary to every tick
outcome, and a manually invoked flush hands the same error straight back to
its caller. -/
theorem scheduled_tick_isolates_errors :
    ∀ (gz : List DataDogSeries → Nat) (fuel : Nat)
      (fc : Key → List Nat → List (String × String) → DataDogMetric)
      (fg : Key → List Nat → List (String × String) → DataDogMetric)
      (fh : Key → List (List Nat) → List (String × String) → DataDogMetric)
      (cfg : DataDogConfig) (api_client : Option Unit)
      (net : HttpRequest → Except Error (Nat × String)) (r : Registry)
      (logs : List Event) (res : Except Error Unit) (r2 : Registry),
      flush gz fuel fc fg fh cfg api_client net r = some (logs, res, r2) →
      schedule_tick gz fuel fc fg fh cfg api_client net r =
          some (logs ++ tick_boundary res, r2) ∧
      (∀ e, res = Except.error e → Event.warnFlushFailed e ∈ logs ++ tick_boundary res) ∧
      Event.debugFlushing (collect fc fg fh cfg.tags r).1.length ∈ logs ++ tick_boundary res ∧
      (∀ e, res = Except.error e →
        manual_flush gz fuel fc fg fh cfg api_client net r = some (logs, Except.error e, r2)) ∧
      (∀ results : List (Except Error Unit), (schedule_ticks results).length = results.length) := by
  intro gz fuel fc fg fh cfg api_client net r logs res r2 h
  refine ⟨?_, ?_, ?_, ?_, ?_⟩
  · simp [schedule_tick, h]
  · intro e he
    subst he
    simp [tick_boundary]
  · obtain ⟨rest, hrest⟩ := flush_logs_shape gz fuel fc fg fh cfg api_client net r logs res r2 h
    rw [hrest]
    simp
  · intro e he
    subst he
    exact h
  · intro results
    simp [schedule_ticks]

/-- Claim C4 witness: a concrete tick whose single request receives status
500 logs the metric count and the transport error and returns no error. -/
theorem scheduled_tick_isolates_errors_witness :
    schedule_tick (fun _ => 0) 1 (fun _ _ _ => ⟨[⟨0, 5⟩]⟩) (fun _ _ _ => ⟨[⟨0, 5⟩]⟩)
        (fun _ _ _ => ⟨[⟨0, 5⟩]⟩) ⟨false, true, "h", some "k", [], false⟩ (some ())
        (fun _ => Except.ok (500, "oops")) ⟨[(⟨"c", []⟩, 1)], [], []⟩ =
      some ([Event.debugFlushing 1, Event.warnFlushFailed (Error.transport 500)],
        Registry.empty) :=
  (scheduled_tick_isolates_errors (fun _ => 0) 1 (fun _ _ _ => ⟨[⟨0, 5⟩]⟩)
      (fun _ _ _ => ⟨[⟨0, 5⟩]⟩) (fun _ _ _ => ⟨[⟨0, 5⟩]⟩)
      ⟨false, true, "h", some "k", [], false⟩ (some ())
      (fun _ => Except.ok (500, "oops")) ⟨[(⟨"c", []⟩, 1)], [], []⟩
      [Event.debugFlushing 1] (Except.error (Error.transport 500)) Registry.empty rfl).1

/-- Claim C5 counterexample: a 304 response passes error_for_status and is
treated as success although 304 is not a 2xx status, refuting the claim that
every status outside the 2xx range is treated as a failure. -/
theorem status_304_treated_as_success :
    error_for_status 304 = Except.ok 304 ∧ ¬ (200 ≤ 304 ∧ 304 < 300) :=
  ⟨rfl, by decide⟩

/-- Claim C5 (amended): every 2xx response is treated as success, and a
response is treated as a failure exactly when its status is a client error
(4xx) or a server error (5xx); surfaced statuses outside both ranges, such as
3xx responses not consumed by redirect handling, also pass as success. -/
theorem error_for_status_success_ranges :
    ∀ status : Nat,
      (200 ≤ status ∧ status < 300 → error_for_status status = Except.ok status) ∧
      (error_for_status status = Except.ok status ↔ ¬ (400 ≤ status ∧ status ≤ 599)) := by
  intro status
  by_cases h : 400 ≤ status ∧ status ≤ 599
  · constructor
    · intro h2
      exfalso
      omega
    · rw [error_for_status, if_pos h]
      constructor
      · intro heq
        exact absurd heq (by simp)
      · intro hn
        exact absurd h hn
  · constructor
    · intro _
      rw [error_for_status, if_neg h]
    · rw [error_for_status, if_neg h]
      exact ⟨fun _ => h, fun _ => rfl⟩

/-- Claim C5 witness: status 204 is a 2xx and passes as success. -/
theorem error_for_status_success_ranges_witness :
    error_for_status 204 = Except.ok 204 :=
  (error_for_status_success_ranges 204).1 (by decide)

/-- Claim C6: exporting an empty metric set issues no HTTP request and
returns success, whatever the configuration, client, network and fuel. -/
theorem write_to_api_empty_is_noop :
    ∀ (gz : List DataDogSeries → Nat) (fuel : Nat) (cfg : DataDogConfig)
      (api_client : Option Unit) (net : HttpRequest → Except Error (Nat × String)),
      write_to_api gz fuel cfg api_client net [] = some ([], Except.ok (), []) := by
  intro gz fuel cfg api_client net
  rfl

/-- Claim C7: collect clears the registry, so a second consecutive collect
with no intervening observations returns an empty metric list. -/
theorem collect_is_destructive :
    ∀ (fc : Key → List Nat → List (String × String) → DataDogMetric)
      (fg : Key → List Nat → List (String × String) → DataDogMetric)
      (fh : Key → List (List Nat) → List (String × String) → DataDogMetric)
      (tags : List (String × String)) (r : Registry),
      (collect fc fg fh tags r).2 = Registry.empty ∧
      (collect fc fg fh tags (collect fc fg fh tags r).2).1 = [] :=
  fun _ _ _ _ _ => ⟨rfl, rfl⟩

/-- Claim C9: with API export enabled, a missing api_client or api_key makes
a flush of a non-empty metric set panic (the unwrap on None), which the model
renders as none, rather than return an encode or transport error. -/
theorem flush_panics_without_client_or_key :
    ∀ (gz : List DataDogSeries → Nat) (fuel : Nat)
      (fc : Key → List Nat → List (String × String) → DataDogMetric)
      (fg : Key → List Nat → List (String × String) → DataDogMetric)
      (fh : Key → List (List Nat) → List (String × String) → DataDogMetric)
      (cfg : DataDogConfig) (api_client : Option Unit)
      (net : HttpRequest → Except Error (Nat × String)) (r : Registry),
      cfg.write_to_api = true →
      (collect fc fg fh cfg.tags r).1 ≠ [] →
      (metric_requests gz fuel (collect fc fg fh cfg.tags r).1 cfg.gzip).isSome = true →
      (api_client = none ∨ cfg.api_key = none) →
      flush gz fuel fc fg fh cfg api_client net r = none := by
  intro gz fuel fc fg fh cfg api_client net r hapi hne hsome hmiss
  simp only [flush]
  rw [if_pos hapi, write_to_api_panics gz fuel cfg api_client net _ hne hsome hmiss]

/-- Claim C9 witness: a registry holding one counter, API export on, api_key
absent: the flush evaluates to none (panic), not to an error Result. -/
theorem flush_panics_without_client_or_key_witness :
    flush (fun _ => 0) 1 (fun _ _ _ => ⟨[⟨0, 5⟩]⟩) (fun _ _ _ => ⟨[⟨0, 5⟩]⟩)
        (fun _ _ _ => ⟨[⟨0, 5⟩]⟩) ⟨false, true, "h", none, [], false⟩ (some ())
        (fun _ => Except.ok (200, "")) ⟨[(⟨"c", []⟩, 1)], [], []⟩ = none :=
  flush_panics_without_client_or_key (fun _ => 0) 1 (fun _ _ _ => ⟨[⟨0, 5⟩]⟩)
    (fun _ _ _ => ⟨[⟨0, 5⟩]⟩) (fun _ _ _ => ⟨[⟨0, 5⟩]⟩)
    ⟨false, true, "h", none, [], false⟩ (some ())
    (fun _ => Except.ok (200, "")) ⟨[(⟨"c", []⟩, 1)], [], []⟩
    rfl (by decide) rfl (Or.inr rfl)

/-- Claim C10: the scheduling interval is the whole-seconds component of the
Duration cast to u32; the sub-second part is ignored, and an interval under
one second is scheduled as a zero-second interval. -/
theorem schedule_uses_whole_seconds_only :
    ∀ (d d2 : Duration) (ms : Nat),
      schedule_interval_seconds d = d.as_secs % 2 ^ 32 ∧
      (d.secs = d2.secs → schedule_interval_seconds d = schedule_interval_seconds d2) ∧
      (d.secs = 0 → schedule_interval_seconds d = 0) ∧
      (ms < 1000 → schedule_interval_seconds (Duration.from_millis ms) = 0) := by
  intro d d2 ms
  refine ⟨rfl, ?_, ?_, ?_⟩
  · intro h
    simp [schedule_interval_seconds, Duration.as_secs, h]
  · intro h
    simp [schedule_interval_seconds, Duration.as_secs, h]
  · intro h
    have h0 : ms / 1000 = 0 := Nat.div_eq_of_lt h
    simp [schedule_interval_seconds, Duration.as_secs, Duration.from_millis, h0]

/-- Claim C10 witness: a 500-millisecond Duration and one built from 750
milliseconds are both scheduled with a zero-second period. -/
theorem schedule_uses_whole_seconds_only_witness :
    schedule_interval_seconds ⟨0, 500000000⟩ = 0 ∧
    schedule_interval_seconds (Duration.from_millis 750) = 0 :=
  ⟨(schedule_uses_whole_seconds_only ⟨0, 500000000⟩ ⟨0, 0⟩ 750).2.2.1 rfl,
   (schedule_uses_whole_seconds_only ⟨0, 500000000⟩ ⟨0, 0⟩ 750).2.2.2 (by decide)⟩
